import Mathlib

/-!
Shallow embedding of `src/Pi/gardener.py` (the3rdPoliceman/Gardener), a BLE
GATT peripheral.  Pure data and the read/write dispatch of the WaterPlants
characteristic, its User Description descriptor, the advertisement payload,
the registration callbacks and the control flow of `main` are translated into
executable Lean definitions; logging calls that carry no state are modelled
only where a claim is about them.  Python exceptions are modelled with an
explicit error type, and methods that can both raise and mutate return
a result paired with the post-call object state.
-/

namespace Gardener

/-- Python exception classes that the embedded code can raise:
`TypeError` (e.g. calling a non-callable, or `bytearray` with `encoding=`
applied to a non-`str`), `UnicodeDecodeError` (from `bytes.decode("utf-8")`
on invalid UTF-8) and the script's own `NotPermittedException`. -/
inductive PyError where
  | typeError
  | unicodeDecodeError
  | notPermitted
deriving DecidableEq, Repr

/-- UTF-8 encoding of one Unicode scalar value (standard 1–4 byte form). -/
def utf8EncodeChar (c : Char) : List Nat :=
  let n := c.toNat
  if n < 0x80 then [n]
  else if n < 0x800 then [0xC0 + n / 0x40, 0x80 + n % 0x40]
  else if n < 0x10000 then
    [0xE0 + n / 0x1000, 0x80 + (n / 0x40) % 0x40, 0x80 + n % 0x40]
  else
    [0xF0 + n / 0x40000, 0x80 + (n / 0x1000) % 0x40,
     0x80 + (n / 0x40) % 0x40, 0x80 + n % 0x40]

/-- UTF-8 encoding of a string, as Python's `str.encode("utf8")` /
`bytearray(s, encoding="utf8")` produce for a `str` argument. -/
def utf8Encode (s : String) : List Nat :=
  (s.data.map utf8EncodeChar).flatten

/-- A UTF-8 continuation byte (`0x80`–`0xBF`). -/
def isCont (b : Nat) : Bool := 0x80 ≤ b && b ≤ 0xBF

/-- Strict UTF-8 decoding as Python's `bytes.decode("utf-8")`: rejects bad
lead bytes, truncated or malformed sequences, overlong forms, surrogate code
points and code points above `0x10FFFF`; `none` models a raised
`UnicodeDecodeError`. -/
def utf8Decode : List Nat → Option (List Char)
  | [] => some []
  | b :: rest =>
    if b ≤ 0x7F then
      match utf8Decode rest with
      | some cs => some (Char.ofNat b :: cs)
      | none => none
    else if b ≤ 0xC1 then
      none
    else if b ≤ 0xDF then
      match rest with
      | b2 :: rest2 =>
        if isCont b2 then
          match utf8Decode rest2 with
          | some cs => some (Char.ofNat ((b - 0xC0) * 0x40 + (b2 - 0x80)) :: cs)
          | none => none
        else none
      | [] => none
    else if b ≤ 0xEF then
      match rest with
      | b2 :: b3 :: rest3 =>
        if isCont b2 && isCont b3 then
          let cp := (b - 0xE0) * 0x1000 + (b2 - 0x80) * 0x40 + (b3 - 0x80)
          if 0x800 ≤ cp && !(0xD800 ≤ cp && cp ≤ 0xDFFF) then
            match utf8Decode rest3 with
            | some cs => some (Char.ofNat cp :: cs)
            | none => none
          else none
        else none
      | _ => none
    else if b ≤ 0xF4 then
      match rest with
      | b2 :: b3 :: b4 :: rest4 =>
        if isCont b2 && isCont b3 && isCont b4 then
          let cp := (b - 0xF0) * 0x40000 + (b2 - 0x80) * 0x1000
                      + (b3 - 0x80) * 0x40 + (b4 - 0x80)
          if 0x10000 ≤ cp && cp ≤ 0x10FFFF then
            match utf8Decode rest4 with
            | some cs => some (Char.ofNat cp :: cs)
            | none => none
          else none
        else none
      | _ => none
    else none

/-- The `WaterPlantsCharacteristic.State` enumeration: three tagged values. -/
inductive State where
  | on
  | off
  | unknown
deriving DecidableEq, Repr

/-- The `.value` string attached to each `State` member. -/
def State.str : State → String
  | .on => "ON"
  | .off => "OFF"
  | .unknown => "UNKNOWN"

/-- `State.has_value(value)`: membership of a candidate string in the
enumeration's value map, `value in cls._value2member_map_`. -/
def State.has_value (v : String) : Bool :=
  v == "ON" || v == "OFF" || v == "UNKNOWN"

/-- The first positional argument the source passes to `bytearray(...,
encoding="utf8")`: either a `str`, or (as actually written in `ReadValue`)
an enum *member* such as `self.State.off`. -/
inductive ByteSource where
  | str (s : String)
  | enumMember (m : State)

/-- Python `bytearray(source, encoding="utf8")`: when `encoding` is given the
source must be a `str`; any other object (in particular an `Enum` member,
whose class does not mix in `str`) raises
`TypeError: encoding without a string argument`. -/
def bytearrayUtf8 : ByteSource → Except PyError (List Nat)
  | .str s => .ok (utf8Encode s)
  | .enumMember _ => .error .typeError

/-- Mutable state of a `WaterPlantsCharacteristic`: its `value` byte list. -/
structure WaterPlantsState where
  value : List Nat
deriving DecidableEq, Repr

/-- `WaterPlantsCharacteristic.__init__`: the value starts as `[0xFF]`. -/
def waterPlantsInit : WaterPlantsState := { value := [0xFF] }

/-- `WaterPlantsCharacteristic.ReadValue(options)` (options unused by the
body): inside `try`, `self.value = bytearray(self.State.off,
encoding="utf8")`; on any exception the handler runs `self.value =
bytearray(self.State.unknown, encoding="utf8")` — this second statement is
*outside* the `try`, so an exception it raises propagates to the caller with
`self.value` unchanged.  Returns the raised error or the returned bytes,
paired with the post-call state. -/
def ReadValue (st : WaterPlantsState) :
    Except PyError (List Nat) × WaterPlantsState :=
  match bytearrayUtf8 (.enumMember State.off) with
  | .ok v => (.ok v, { st with value := v })
  | .error _ =>
    match bytearrayUtf8 (.enumMember State.unknown) with
    | .ok v => (.ok v, { st with value := v })
    | .error e => (.error e, st)

/-- `WaterPlantsCharacteristic.WriteValue(value, options)`:
`cmd = bytes(value).decode("utf-8")` runs first (raising
`UnicodeDecodeError` on invalid UTF-8, before any mutation); the enum
validation block is commented out in the source; then `self.value = value`
stores the raw input bytes.  Returns the outcome paired with the post-call
state. -/
def WriteValue (st : WaterPlantsState) (value : List Nat) :
    Except PyError Unit × WaterPlantsState :=
  match utf8Decode value with
  | none => (.error .unicodeDecodeError, st)
  | some _cmd => (.ok (), { st with value := value })

/-- The byte values of `WaterPlantsCharacteristic.description`, the bytes
literal `b"Get/set machine power state ..."` listing the three state strings
in quotes; `array.array("B", description).tolist()` yields exactly this list
of ints. -/
def description : List Nat :=
  [71, 101, 116, 47, 115, 101, 116, 32, 109, 97, 99, 104, 105, 110, 101, 32,
   112, 111, 119, 101, 114, 32, 115, 116, 97, 116, 101, 32, 123, 39, 79, 78,
   39, 44, 32, 39, 79, 70, 70, 39, 44, 32, 39, 85, 78, 75, 78, 79, 87, 78,
   39, 125]

/-- Mutable state of a descriptor: its `value` bytes and the `writable`
attribute consulted by `WriteValue`. -/
structure DescriptorState where
  value : List Nat
  writable : Bool
deriving DecidableEq, Repr

/-- Modelled from the spec: the `ble.Descriptor` base class is not in the
repository sources; per the spec a Descriptor holds "a `writable: bool`
derived from its flags", i.e. true exactly when the flags grant a write
capability. -/
def descriptorWritable (flags : List String) : Bool :=
  flags.any (fun f => f == "write" || f == "encrypt-write"
    || f == "encrypt-authenticated-write" || f == "secure-write")

/-- `CharacteristicUserDescriptionDescriptor.__init__`: value is the
characteristic's description bytes as a list; the descriptor is constructed
with flags `["read"]`, so `writable` is derived false. -/
def cudDescriptor : DescriptorState :=
  { value := description, writable := descriptorWritable ["read"] }

/-- `CharacteristicUserDescriptionDescriptor.ReadValue(options)`:
`return self.value`, no mutation. -/
def cudReadValue (st : DescriptorState) : List Nat := st.value

/-- `CharacteristicUserDescriptionDescriptor.WriteValue(value, options)`:
`if not self.writable: raise NotPermittedException()`, else store the bytes. -/
def cudWriteValue (st : DescriptorState) (v : List Nat) :
    Except PyError DescriptorState :=
  if st.writable then .ok { st with value := v } else .error .notPermitted

/-- A call a GATT client can make against the descriptor. -/
inductive DescOp where
  | read
  | write (v : List Nat)

/-- State evolution of the descriptor under one call: a read leaves the state
alone; a write that raises leaves the state alone, a successful write stores
the new bytes. -/
def descStep (st : DescriptorState) : DescOp → DescriptorState
  | .read => st
  | .write v =>
    match cudWriteValue st v with
    | .ok st2 => st2
    | .error _ => st

/-- Descriptor state after an arbitrary sequence of read/write calls. -/
def descRun (st : DescriptorState) : List DescOp → DescriptorState
  | [] => st
  | op :: ops => descRun (descStep st op) ops

/-- Severity levels of the `logging` calls the claims mention. -/
inductive LogLevel where
  | debug
  | info
  | error
  | critical
deriving DecidableEq, Repr

/-- Observable effect of running a registration callback: the log records it
emits and whether it calls `mainloop.quit()`. -/
structure CallbackEffect where
  logs : List (LogLevel × String)
  quitLoop : Bool

/-- `register_application_error_callback(error)`: logs
`"Failed to register application: " + str(error)` at critical severity and
calls `mainloop.quit()`. -/
def register_application_error_callback (error : String) : CallbackEffect :=
  { logs := [(.critical, "Failed to register application: " ++ error)],
    quitLoop := true }

/-- `register_advertisement_error_callback(error)`: logs
`"Failed to register advertisement: " + str(error)` at critical severity and
calls `mainloop.quit()`. -/
def register_advertisement_error_callback (error : String) : CallbackEffect :=
  { logs := [(.critical, "Failed to register advertisement: " ++ error)],
    quitLoop := true }

/-- The Python value passed as the `error_handler=` keyword of an async DBus
call: a callable, or some other object such as a list of callables. -/
inductive ErrorHandlerArg where
  | callable (f : String → CallbackEffect)
  | pyList (fs : List (String → CallbackEffect))

/-- The `error_handler=` argument `main` passes to
`RegisterApplication`: the list `[register_application_error_callback]`,
not the callback itself. -/
def applicationErrorHandler : ErrorHandlerArg :=
  .pyList [register_application_error_callback]

/-- The `error_handler=` argument `main` passes to
`RegisterAdvertisement`: the bare callable
`register_advertisement_error_callback`. -/
def advertisementErrorHandler : ErrorHandlerArg :=
  .callable register_advertisement_error_callback

/-- What happens when the bus delivers an error reply and dbus-python calls
`error_handler(exception)`: a callable runs and yields its effect; a list is
not callable, so Python raises `TypeError` inside the dispatcher and the
callback's body never runs (no log record, no `mainloop.quit()`). -/
def invokeErrorHandler : ErrorHandlerArg → String → Except PyError CallbackEffect
  | .callable f, e => .ok (f e)
  | .pyList _, _ => .error .typeError

/-- The manufacturer-data payload constant `MANUFACTURER_DAVE`. -/
def MANUFACTURER_DAVE : List Nat := [0x64, 0x61, 0x76, 0x65]

/-- `GardenerService.GARDENER_SVC_UUID`. -/
def GARDENER_SVC_UUID : String := "a0445a21-158f-4ca8-840d-6ec56ca58962"

/-- `WaterPlantsCharacteristic.uuid`. -/
def WATER_PLANTS_UUID : String := "7e709c77-1844-46e7-8fd0-27b0b2382ee8"

/-- The Advertisement value object of the spec's data model: kind, advertised
service UUIDs, manufacturer data (company id to payload), optional local name
and the TX-power inclusion flag. -/
structure Advertisement where
  ad_type : String
  service_uuids : List String
  manufacturer_data : List (Nat × List Nat)
  local_name : Option String
  include_tx_power : Bool
deriving DecidableEq, Repr

/-- Modelled from the spec: `ble.Advertisement.__init__(bus, index, ad_type)`
is not in the repository sources; per the spec the Advertisement is a value
object constructed with its kind and otherwise empty fields. -/
def Advertisement.init (ad_type : String) : Advertisement :=
  { ad_type := ad_type, service_uuids := [], manufacturer_data := [],
    local_name := none, include_tx_power := false }

/-- Modelled from the spec: `ble.Advertisement.add_manufacturer_data` maps a
company id to a byte payload in the manufacturer-data mapping. -/
def Advertisement.add_manufacturer_data (a : Advertisement) (company : Nat)
    (data : List Nat) : Advertisement :=
  { a with manufacturer_data := a.manufacturer_data ++ [(company, data)] }

/-- Modelled from the spec: `ble.Advertisement.add_service_uuid` adds a UUID
to the advertised service list. -/
def Advertisement.add_service_uuid (a : Advertisement) (uuid : String) :
    Advertisement :=
  { a with service_uuids := a.service_uuids ++ [uuid] }

/-- Modelled from the spec: `ble.Advertisement.add_local_name` sets the local
name. -/
def Advertisement.add_local_name (a : Advertisement) (n : String) :
    Advertisement :=
  { a with local_name := some n }

/-- `GardenerAdvertisement.__init__(bus, index)`: base constructor with kind
`"peripheral"`, then `add_manufacturer_data(0xFFFF, MANUFACTURER_DAVE)`,
`add_service_uuid(GARDENER_SVC_UUID)`, `add_local_name("Gardener")` and
`self.include_tx_power = True`. -/
def gardenerAdvertisement : Advertisement :=
  let a := Advertisement.init "peripheral"
  let a := a.add_manufacturer_data 0xFFFF MANUFACTURER_DAVE
  let a := a.add_service_uuid GARDENER_SVC_UUID
  let a := a.add_local_name "Gardener"
  { a with include_tx_power := true }

/-- The externally visible steps `main` can take, in program order. -/
inductive MainAction where
  | logCritical (msg : String)
  | logInfo (msg : String)
  | powerOnAdapter
  | createMainLoop
  | registerAgent
  | registerAdvertisement
  | registerApplication
  | requestDefaultAgent
  | runLoop
deriving DecidableEq, Repr

/-- The sequence of steps `main` performs, as a function of what
`find_gatt_manager(bus)` returned (the adapter object path, or `None`).
When it returns `None`, `main` logs `"GattManager1 interface not found"` at
critical severity and returns at once; otherwise it powers the adapter,
creates the run loop, registers the agent, logs and requests advertisement
registration, logs and requests application registration, requests the
default agent and enters the run loop. -/
def mainActions (gatt_manager : Option String) : List MainAction :=
  match gatt_manager with
  | none => [.logCritical "GattManager1 interface not found"]
  | some _ =>
    [.powerOnAdapter, .createMainLoop, .registerAgent,
     .logInfo "Registering advertisment...", .registerAdvertisement,
     .logInfo "Registering GATT application...", .registerApplication,
     .requestDefaultAgent, .runLoop]

/-- Helper: a descriptor whose `writable` attribute is false is left exactly
as it was by any sequence of read/write calls (reads do not mutate, writes
raise before mutating). -/
theorem descRun_not_writable (ops : List DescOp) :
    ∀ st : DescriptorState, st.writable = false → descRun st ops = st := by
  induction ops with
  | nil => intro st _; rfl
  | cons op ops ih =>
    intro st h
    have hstep : descStep st op = st := by
      cases op with
      | read => rfl
      | write v => simp [descStep, cudWriteValue, h]
    rw [descRun, hstep]
    exact ih st h

end Gardener

namespace Gardener

/-- C1: the claim says every `ReadValue` on the WaterPlants characteristic
returns the UTF-8 bytes of `"OFF"` and stores them.  In the source the
assignment is `bytearray(self.State.off, encoding="utf8")` — the enum member
itself, not its `.value` string — so `bytearray` raises `TypeError`, the
`except` handler's identical fallback raises `TypeError` again uncaught, and
the call returns no bytes at all; the value stays `[0xFF]`. -/
theorem C1_read_raises_typeerror :
    ReadValue waterPlantsInit = (.error .typeError, waterPlantsInit) ∧
    waterPlantsInit.value ≠ utf8Encode "OFF" := by
  exact ⟨rfl, by decide⟩

/-- C3: the claim says an encoding failure inside `ReadValue` is recovered
locally by storing and returning the UTF-8 bytes of `"UNKNOWN"`, with no
error escaping.  In the source the recovery statement
`self.value = bytearray(self.State.unknown, encoding="utf8")` sits outside
the `try` and raises `TypeError` itself (enum member, not a `str`), so for
every prior state the error escapes to the caller and the value is left
unchanged — never the `"UNKNOWN"` bytes. -/
theorem C3_fallback_also_raises (st : WaterPlantsState) :
    ReadValue st = (.error .typeError, st) := rfl

/-- C4: the claim says `WriteValue(v)` followed by `ReadValue` returns the
UTF-8 bytes of `"OFF"`.  Evaluating the code at `v = b"ON"`: the write
succeeds and stores `[0x4F, 0x4E]`, but the subsequent read raises
`TypeError` instead of returning the `"OFF"` bytes, leaving the written
value in place. -/
theorem C4_write_then_read_raises :
    WriteValue waterPlantsInit (utf8Encode "ON")
      = (.ok (), { value := [0x4F, 0x4E] }) ∧
    ReadValue { value := [0x4F, 0x4E] }
      = (.error .typeError, { value := [0x4F, 0x4E] }) := by
  exact ⟨rfl, rfl⟩

/-- C2 counterexample: the claim says `WriteValue` succeeds for *every* byte
sequence.  At the single byte `[0xFF]` — not valid UTF-8 — the decode
`bytes(value).decode("utf-8")` raises `UnicodeDecodeError` and the write
fails with the value unchanged. -/
theorem C2_rejects_invalid_utf8 :
    WriteValue waterPlantsInit [0xFF]
      = (.error .unicodeDecodeError, waterPlantsInit) := rfl

/-- C2 (amended): for every byte sequence that *is* valid UTF-8, `WriteValue`
on the WaterPlants characteristic succeeds and stores the raw input bytes
unchanged; no validation against the enumeration `{ON, OFF, UNKNOWN}` is
performed (the validation block is commented out), so no decodable write is
rejected. -/
theorem C2_write_accepts_valid_utf8 (st : WaterPlantsState) (v : List Nat)
    (h : (utf8Decode v).isSome = true) :
    WriteValue st v = (.ok (), { value := v }) := by
  unfold WriteValue
  cases hd : utf8Decode v with
  | none => rw [hd] at h; simp [Option.isSome] at h
  | some cs => rfl

/-- C2 witness: the bytes of `"HELLO"` are valid UTF-8, decode to a string
outside the `{ON, OFF, UNKNOWN}` enumeration, and are still stored verbatim. -/
theorem C2_write_accepts_valid_utf8_witness :
    (utf8Decode [72, 69, 76, 76, 79]).isSome = true ∧
    State.has_value "HELLO" = false ∧
    WriteValue waterPlantsInit [72, 69, 76, 76, 79]
      = (.ok (), { value := [72, 69, 76, 76, 79] }) :=
  ⟨by decide, by decide,
    C2_write_accepts_valid_utf8 waterPlantsInit [72, 69, 76, 76, 79] (by decide)⟩

/-- C5: every `WriteValue` on the User Description descriptor raises
`NotPermitted` (it is constructed with flags `["read"]`, so `writable` is
false), and after *any* sequence of read/write calls the state is untouched:
`ReadValue` still returns exactly the construction-time description bytes. -/
theorem C5_cud_read_only (ops : List DescOp) :
    descRun cudDescriptor ops = cudDescriptor ∧
    cudReadValue (descRun cudDescriptor ops) = description ∧
    ∀ v, cudWriteValue (descRun cudDescriptor ops) v = .error .notPermitted := by
  have h : descRun cudDescriptor ops = cudDescriptor :=
    descRun_not_writable ops cudDescriptor rfl
  refine ⟨h, ?_, ?_⟩
  · rw [h]; rfl
  · intro v; rw [h]; rfl

/-- C6: the claim says a rejected GATT application registration invokes an
error callback that logs critically and stops the run loop.  The callback
`register_application_error_callback` does exactly that — but `main` passes
`error_handler=[register_application_error_callback]`, a one-element *list*,
to `RegisterApplication`; when the bus delivers the error reply the
dispatcher calls the list, which raises `TypeError`, so the callback body
never runs: no critical log, no `mainloop.quit()`. -/
theorem C6_application_error_handler_never_runs :
    register_application_error_callback "org.bluez.Error.Failed"
      = { logs := [(.critical,
            "Failed to register application: org.bluez.Error.Failed")],
          quitLoop := true } ∧
    invokeErrorHandler applicationErrorHandler "org.bluez.Error.Failed"
      = .error .typeError := by
  exact ⟨rfl, rfl⟩

/-- C7: when `find_gatt_manager` returns nothing, `main` logs
`"GattManager1 interface not found"` at critical severity and returns at
once: the run loop is never created or entered, and no agent, advertisement
or application registration is requested. -/
theorem C7_missing_gatt_manager_halts :
    mainActions none = [.logCritical "GattManager1 interface not found"] ∧
    MainAction.createMainLoop ∉ mainActions none ∧
    MainAction.registerAgent ∉ mainActions none ∧
    MainAction.registerAdvertisement ∉ mainActions none ∧
    MainAction.registerApplication ∉ mainActions none ∧
    MainAction.runLoop ∉ mainActions none := by
  refine ⟨rfl, ?_, ?_, ?_, ?_, ?_⟩ <;> decide

/-- C8: the advertisement built at startup has kind `"peripheral"`,
manufacturer id `0xFFFF` mapped to the payload `[0x64, 0x61, 0x76, 0x65]`,
the single service UUID `a0445a21-158f-4ca8-840d-6ec56ca58962`, local name
`"Gardener"`, and TX-power inclusion enabled. -/
theorem C8_advertisement_contents :
    gardenerAdvertisement =
      { ad_type := "peripheral",
        service_uuids := ["a0445a21-158f-4ca8-840d-6ec56ca58962"],
        manufacturer_data := [(0xFFFF, [0x64, 0x61, 0x76, 0x65])],
        local_name := some "Gardener",
        include_tx_power := true } := rfl

/-- C9: if the byte sequence passed to `WriteValue` is not valid UTF-8, the
decode `bytes(value).decode("utf-8")` raises before the assignment to
`self.value`, so the call fails and the characteristic's value is left
unchanged. -/
theorem C9_invalid_utf8_write_atomic (st : WaterPlantsState) (v : List Nat)
    (h : utf8Decode v = none) :
    WriteValue st v = (.error .unicodeDecodeError, st) := by
  unfold WriteValue
  rw [h]

/-- C9 witness: the single byte `[0xFF]` is not valid UTF-8 and a write of it
to a fresh characteristic fails, leaving the initial value in place. -/
theorem C9_invalid_utf8_write_atomic_witness :
    utf8Decode [0xFF] = none ∧
    WriteValue waterPlantsInit [0xFF]
      = (.error .unicodeDecodeError, waterPlantsInit) :=
  ⟨by decide, C9_invalid_utf8_write_atomic waterPlantsInit [0xFF] (by decide)⟩

/-- C10: immediately after construction the WaterPlants characteristic's
value is the single byte `[0xFF]`, which is not the UTF-8 encoding of any of
the three `State` strings `"ON"`, `"OFF"`, `"UNKNOWN"`. -/
theorem C10_initial_value_sentinel :
    waterPlantsInit.value = [0xFF] ∧
    waterPlantsInit.value ≠ utf8Encode "ON" ∧
    waterPlantsInit.value ≠ utf8Encode "OFF" ∧
    waterPlantsInit.value ≠ utf8Encode "UNKNOWN" := by
  refine ⟨rfl, ?_, ?_, ?_⟩ <;> decide

end Gardener
